import Mathlib

/-!
Verification of the EcoHouse monitoring core (dashboard.py, datagen.py).

Shallow embedding conventions:
* Python floats (`temperature_c`, `power_w`) are modelled as rationals `ℚ`;
  all operations the code performs on them (comparison, subtraction,
  clamping) are exact on rationals.
* UTC-aware timestamps are modelled as rationals counting seconds, so that
  `(now_utc - latest["timestamp"]).total_seconds()` becomes plain
  subtraction.
* `pd.Timestamp.now(tz="UTC")`, which `compute_insights` reads internally,
  is modelled as an explicit `now_utc` argument (the wall clock is an input
  of the evaluation).
* The f-string texts of insights are modelled by the inductive
  `InsightText`, one constructor per distinct message, carrying the numeric
  payload that the Python code interpolates into the string.  The emoji
  icons are modelled by the inductive `Icon`, one constructor per emoji.
-/

/-- A normalized reading: row of the dataframe produced by `load_data`
(timestamp already parsed to a UTC instant, numeric fields as rationals). -/
structure Reading where
  timestamp : ℚ
  temperature_c : ℚ
  power_w : ℚ
  deriving DecidableEq, Repr

instance : Inhabited Reading := ⟨⟨0, 0, 0⟩⟩

/-- Insight level: the `"ok" | "info" | "warn"` strings of dashboard.py. -/
inductive Level where
  | ok
  | info
  | warn
  deriving DecidableEq, Repr

/-- Insight icon: one constructor per emoji used by `compute_insights`. -/
inductive Icon where
  | hourglass
  | thermo
  | cold
  | checkmark
  | bolt
  | moon
  | plug
  | chartUp
  | chartDown
  | orangeDot
  | greenDot
  deriving DecidableEq, Repr

/-- Insight text: one constructor per f-string of `compute_insights`, with
the interpolated numeric value carried as payload. -/
inductive InsightText where
  | waitingForData
  | highTemperature (t : ℚ)
  | lowTemperature (t : ℚ)
  | temperatureNormal (t : ℚ)
  | highPowerUsage (p : ℚ)
  | veryLowPowerUsage (p : ℚ)
  | powerStable (p : ℚ)
  | loadSpike (d : ℚ)
  | loadDrop (d : ℚ)
  | dataDelay (age : ℤ)
  | liveFeedHealthy
  deriving DecidableEq, Repr

/-- An insight `(text, level, icon)` tuple as returned by
`compute_insights`. -/
structure Insight where
  text : InsightText
  level : Level
  icon : Icon
  deriving DecidableEq, Repr

/-- `TEMP_HIGH_C` of dashboard.py. -/
def TEMP_HIGH_C : ℚ := 38
/-- `TEMP_LOW_C` of dashboard.py. -/
def TEMP_LOW_C : ℚ := 16
/-- `POWER_HIGH_W` of dashboard.py. -/
def POWER_HIGH_W : ℚ := 2500
/-- `POWER_LOW_W` of dashboard.py. -/
def POWER_LOW_W : ℚ := 150
/-- `SPIKE_W` of dashboard.py. -/
def SPIKE_W : ℚ := 400
/-- `STALE_SECONDS` of dashboard.py. -/
def STALE_SECONDS : ℚ := 30

/-- Python `int(x)` on a float: truncation toward zero, modelled on `ℚ`. -/
def truncQ (q : ℚ) : ℤ :=
  q.num.tdiv (q.den : ℤ)

/-- Body of `compute_insights` past the `len(df) < 3` guard: the four rule
blocks evaluated on `latest = df.iloc[-1]` and `prev = df.iloc[-2]`.  Each
`insights.append` of a rule branch becomes a one-element list and the
sequential appends become list concatenation, preserving order. -/
def insightRules (latest prev : Reading) (now_utc : ℚ) : List Insight :=
  let temp := latest.temperature_c
  let power := latest.power_w
  -- Temperature insights
  let tempIns : List Insight :=
    if temp ≥ TEMP_HIGH_C then [⟨.highTemperature temp, .warn, .thermo⟩]
    else if temp ≤ TEMP_LOW_C then [⟨.lowTemperature temp, .warn, .cold⟩]
    else [⟨.temperatureNormal temp, .ok, .checkmark⟩]
  -- Power insights
  let powerIns : List Insight :=
    if power ≥ POWER_HIGH_W then [⟨.highPowerUsage power, .warn, .bolt⟩]
    else if power ≤ POWER_LOW_W then [⟨.veryLowPowerUsage power, .info, .moon⟩]
    else [⟨.powerStable power, .ok, .plug⟩]
  -- Spike/drop detection
  let power_delta := power - prev.power_w
  let spikeIns : List Insight :=
    if power_delta > SPIKE_W then [⟨.loadSpike power_delta, .warn, .chartUp⟩]
    else if power_delta < -SPIKE_W then [⟨.loadDrop power_delta, .info, .chartDown⟩]
    else []
  -- Live feed health (freshness)
  let age_sec := now_utc - latest.timestamp
  let freshIns : List Insight :=
    if age_sec > STALE_SECONDS then [⟨.dataDelay (truncQ age_sec), .warn, .orangeDot⟩]
    else [⟨.liveFeedHealthy, .ok, .greenDot⟩]
  tempIns ++ powerIns ++ spikeIns ++ freshIns

/-- `compute_insights` of dashboard.py.  `df.iloc[-1]` and `df.iloc[-2]`
become `getD` at indices `length - 1` and `length - 2`; the default is
never read because the indices are in bounds once `3 ≤ df.length`. -/
def compute_insights (df : List Reading) (now_utc : ℚ) : List Insight :=
  if df.length < 3 then
    [⟨.waitingForData, .info, .hourglass⟩]
  else
    insightRules (df.getD (df.length - 1) default) (df.getD (df.length - 2) default) now_utc

/-- Variant of `compute_insights` in which the two `df.iloc` accesses are
fallible (`none` models Python raising `IndexError`), used to state that the
function raises no exception. -/
def compute_insightsE (df : List Reading) (now_utc : ℚ) : Option (List Insight) :=
  if df.length < 3 then
    some [⟨.waitingForData, .info, .hourglass⟩]
  else
    match df[df.length - 1]?, df[df.length - 2]? with
    | some latest, some prev => some (insightRules latest prev now_utc)
    | _, _ => none

/-- State-passing variant of `compute_insights`: returns the insight list
together with the dataframe as it stands after the call.  Every statement of
the Python body only reads `df` (`len`, `iloc`, column access), so the state
component passes through each step unchanged. -/
def compute_insightsSt (df : List Reading) (now_utc : ℚ) : List Insight × List Reading :=
  if df.length < 3 then
    ([⟨.waitingForData, .info, .hourglass⟩], df)
  else
    let latest := df.getD (df.length - 1) default
    let prev := df.getD (df.length - 2) default
    (insightRules latest prev now_utc, df)

/-- Category predicate: the insight is one of the three temperature
classifications. -/
def isTemperatureInsight (i : Insight) : Bool :=
  match i.text with
  | .highTemperature _ | .lowTemperature _ | .temperatureNormal _ => true
  | _ => false

/-- Category predicate: the insight is one of the three power
classifications. -/
def isPowerInsight (i : Insight) : Bool :=
  match i.text with
  | .highPowerUsage _ | .veryLowPowerUsage _ | .powerStable _ => true
  | _ => false

/-- Category predicate: the insight is a load spike or load drop. -/
def isSpikeDropInsight (i : Insight) : Bool :=
  match i.text with
  | .loadSpike _ | .loadDrop _ => true
  | _ => false

/-- Category predicate: the insight is a freshness insight. -/
def isFreshnessInsight (i : Insight) : Bool :=
  match i.text with
  | .dataDelay _ | .liveFeedHealthy => true
  | _ => false

/-- A raw CSV data row as seen by `load_data` before timestamp filtering.
`timestamp` is the result of `pd.to_datetime(..., errors="coerce", utc=True)`
on the row's timestamp string: `some` instant when the string parses,
`none` (pandas `NaT`) when it does not. -/
structure RawRow where
  timestamp : Option ℚ
  temperature_c : ℚ
  power_w : ℚ
  deriving DecidableEq, Repr

/-- The comparison used by `sort_values("timestamp")`. -/
def tsLE (a b : Reading) : Prop := a.timestamp ≤ b.timestamp

instance : DecidableRel tsLE := fun a b => inferInstanceAs (Decidable (a.timestamp ≤ b.timestamp))

/-- `load_data` of dashboard.py.  The filesystem state behind `csv_path` is
modelled as `Option (List RawRow)`: `none` when `os.path.exists` is false,
`some rows` for the parsed data rows of an existing CSV (`pd.read_csv`
consumes the header line).  `dropna(subset=["timestamp"])` becomes a
`filterMap` keeping rows whose timestamp parsed, and `sort_values` becomes a
sort ascending by timestamp. -/
def load_data (store : Option (List RawRow)) : List Reading :=
  match store with
  | none => []
  | some rows =>
    if rows.isEmpty then []
    else
      let parsed := rows.filterMap fun r =>
        r.timestamp.map fun ts => Reading.mk ts r.temperature_c r.power_w
      parsed.insertionSort tsLE

/-- Random draws consumed by one call to `generate_next_row`, passed as
explicit inputs: `np.random.normal(0, temp_noise)`,
`np.random.normal(0, power_noise)`, the two `np.random.rand()` results and
the two `np.random.uniform` amplitudes. -/
structure Draws where
  temp_noise_draw : ℚ
  power_noise_draw : ℚ
  spike_rand : ℚ
  spike_amt : ℚ
  dip_rand : ℚ
  dip_amt : ℚ
  deriving DecidableEq, Repr

/-- The record returned by `generate_next_row` (timestamp kept as an
instant; the ISO formatting is presentation only). -/
structure GenRow where
  timestamp : ℚ
  temperature_c : ℚ
  power_w : ℚ
  deriving DecidableEq, Repr

/-- `np.clip(x, lo, hi)`. -/
def clip (x lo hi : ℚ) : ℚ := min (max x lo) hi

/-- Python `round(q, n)` to `n` decimal places, modelled with Mathlib's
`round` (nearest integer; ties differ from Python's round-half-even only at
exact half-ulps, which no claim depends on). -/
def round_to (n : ℕ) (q : ℚ) : ℚ := (round (q * 10 ^ n) : ℚ) / 10 ^ n

/-- `generate_next_row` of datagen.py.  The transcendental values
`np.sin(t / 35.0)` and `np.sin(t / 12.0)` are passed as the oracle inputs
`sin_t_35` and `sin_t_12` (the clamping claim holds for arbitrary values of
them), the random draws as `d`, and `datetime.now(timezone.utc)` as `now`. -/
def generate_next_row (base_temp base_power : ℚ)
    (sin_t_35 sin_t_12 : ℚ) (d : Draws) (now : ℚ) : GenRow :=
  let temp := base_temp + 5/2 * sin_t_35 + d.temp_noise_draw
  let power0 := base_power + 180 * sin_t_12 + d.power_noise_draw
  let power1 := if d.spike_rand < 8/100 then power0 + d.spike_amt else power0
  let power2 := if d.dip_rand < 5/100 then power1 - d.dip_amt else power1
  let temp_c := clip temp 10 55
  let power_c := clip power2 0 6000
  { timestamp := now
    temperature_c := round_to 2 temp_c
    power_w := round_to 1 power_c }

instance : Inhabited Insight := ⟨⟨.waitingForData, .info, .hourglass⟩⟩

instance : IsTotal Reading tsLE := ⟨fun a b => le_total a.timestamp b.timestamp⟩

instance : IsTrans Reading tsLE := ⟨fun _ _ _ hab hbc => le_trans hab hbc⟩

/-- C2: a window with fewer than 3 readings yields exactly the single
info-level "waiting for more data points" insight; no other rule output
appears. -/
theorem compute_insights_short_window (df : List Reading) (now_utc : ℚ)
    (h : df.length < 3) :
    compute_insights df now_utc = [⟨.waitingForData, .info, .hourglass⟩] ∧
    ∀ i ∈ compute_insights df now_utc, i.level = .info := by
  have he : compute_insights df now_utc = [⟨.waitingForData, .info, .hourglass⟩] := by
    simp [compute_insights, h]
  refine ⟨he, ?_⟩
  intro i hi
  rw [he] at hi
  simp only [List.mem_singleton] at hi
  rw [hi]

/-- Witness for C2: the empty window produces the single waiting insight. -/
theorem compute_insights_short_window_witness :
    compute_insights [] 0 = [⟨.waitingForData, .info, .hourglass⟩] ∧
    ∀ i ∈ compute_insights [] 0, i.level = .info :=
  compute_insights_short_window [] 0 (by decide)

/-- C5: insight evaluation is deterministic and idempotent — identical
window contents and identical wall clock give identical output; the
embedding has no state besides its two arguments. -/
theorem compute_insights_deterministic (df₁ df₂ : List Reading)
    (now₁ now₂ : ℚ) (hw : df₁ = df₂) (hn : now₁ = now₂) :
    compute_insights df₁ now₁ = compute_insights df₂ now₂ := by
  rw [hw, hn]

/-- Witness for C5: two evaluations on the same concrete window and clock
agree. -/
theorem compute_insights_deterministic_witness :
    compute_insights [⟨0, 20, 1000⟩, ⟨1, 21, 1100⟩, ⟨2, 22, 1200⟩] 2 =
      compute_insights [⟨0, 20, 1000⟩, ⟨1, 21, 1100⟩, ⟨2, 22, 1200⟩] 2 :=
  compute_insights_deterministic _ _ _ _ rfl rfl

/-- C6: an absent store and an existing-but-empty store both load to the
empty sequence, with no error value involved (`load_data` is total). -/
theorem load_data_absent_or_empty :
    load_data none = [] ∧ load_data (some []) = [] :=
  ⟨rfl, rfl⟩

/-- C8: `compute_insights` raises no exception: the variant whose `iloc`
accesses are fallible always returns `some`, and agrees with the total
function (numeric fields are by construction present rationals). -/
theorem compute_insights_no_exception (df : List Reading) (now_utc : ℚ) :
    compute_insightsE df now_utc = some (compute_insights df now_utc) := by
  by_cases h : df.length < 3
  · simp [compute_insightsE, compute_insights, h]
  · have h1 : df.length - 1 < df.length := by omega
    have h2 : df.length - 2 < df.length := by omega
    simp [compute_insightsE, compute_insights, h,
      List.getElem?_eq_getElem h1, List.getElem?_eq_getElem h2,
      List.getD_eq_getElem?_getD]

/-- C10: `compute_insights` does not mutate its input window: the
state-passing rendition returns the dataframe unchanged while computing the
same insights. -/
theorem compute_insights_preserves_window (df : List Reading) (now_utc : ℚ) :
    (compute_insightsSt df now_utc).2 = df ∧
    (compute_insightsSt df now_utc).1 = compute_insights df now_utc := by
  unfold compute_insightsSt compute_insights
  split <;> exact ⟨rfl, rfl⟩

/-- The parsing step of `load_data`: rows whose timestamp parsed become
Readings, the rest vanish. -/
def parseRows (rows : List RawRow) : List Reading :=
  rows.filterMap fun r => r.timestamp.map fun ts => Reading.mk ts r.temperature_c r.power_w

lemma load_data_some_eq (rows : List RawRow) :
    load_data (some rows) = (parseRows rows).insertionSort tsLE := by
  by_cases h : rows.isEmpty
  · rw [List.isEmpty_iff] at h
    subst h
    rfl
  · simp only [load_data, parseRows, if_neg h]

lemma parseRows_length (rows : List RawRow) :
    (parseRows rows).length = (rows.filter fun r => r.timestamp.isSome).length := by
  induction rows with
  | nil => rfl
  | cons r rs ih =>
    cases hr : r.timestamp <;>
      simp [parseRows, List.filterMap_cons, List.filter_cons, hr] <;>
      simpa [parseRows] using ih

/-- C7: loading an existing store keeps exactly the rows whose timestamp
parses (as a permutation of their parsed Readings — so one unparsable row
among N valid ones loads to length N), sorted ascending by timestamp. -/
theorem load_data_parses_and_sorts (rows : List RawRow) :
    List.Perm (load_data (some rows)) (parseRows rows) ∧
    List.Sorted tsLE (load_data (some rows)) ∧
    (load_data (some rows)).length =
      (rows.filter fun r => r.timestamp.isSome).length := by
  rw [load_data_some_eq]
  refine ⟨List.perm_insertionSort tsLE (parseRows rows),
    List.sorted_insertionSort tsLE (parseRows rows), ?_⟩
  rw [(List.perm_insertionSort tsLE (parseRows rows)).length_eq]
  exact parseRows_length rows

lemma clip_bounds (x lo hi : ℚ) (h : lo ≤ hi) :
    lo ≤ clip x lo hi ∧ clip x lo hi ≤ hi :=
  ⟨le_min (le_max_right x lo) h, min_le_right _ _⟩

lemma round_to_mono (n : ℕ) {a b : ℚ} (h : a ≤ b) :
    round_to n a ≤ round_to n b := by
  unfold round_to
  have hp : (0 : ℚ) < 10 ^ n := by positivity
  have hr : round (a * 10 ^ n) ≤ round (b * 10 ^ n) := by
    rw [round_eq, round_eq]
    exact Int.floor_le_floor (by nlinarith)
  exact (div_le_div_iff_of_pos_right hp).mpr (by exact_mod_cast hr)

/-- C9: for every tick, oscillation value and random-draw outcome, the
generated record has temperature in `[10, 55]` and power in `[0, 6000]`
(the clamps are applied after oscillation, noise, spikes and dips). -/
theorem generate_next_row_bounds (base_temp base_power sin_t_35 sin_t_12 : ℚ)
    (d : Draws) (now : ℚ) :
    10 ≤ (generate_next_row base_temp base_power sin_t_35 sin_t_12 d now).temperature_c ∧
    (generate_next_row base_temp base_power sin_t_35 sin_t_12 d now).temperature_c ≤ 55 ∧
    0 ≤ (generate_next_row base_temp base_power sin_t_35 sin_t_12 d now).power_w ∧
    (generate_next_row base_temp base_power sin_t_35 sin_t_12 d now).power_w ≤ 6000 := by
  unfold generate_next_row
  have ht := clip_bounds (base_temp + 5/2 * sin_t_35 + d.temp_noise_draw) 10 55 (by norm_num)
  set p2 := (if d.dip_rand < 5/100 then
      (if d.spike_rand < 8/100 then
        base_power + 180 * sin_t_12 + d.power_noise_draw + d.spike_amt
       else base_power + 180 * sin_t_12 + d.power_noise_draw) - d.dip_amt
    else
      if d.spike_rand < 8/100 then
        base_power + 180 * sin_t_12 + d.power_noise_draw + d.spike_amt
      else base_power + 180 * sin_t_12 + d.power_noise_draw) with hp2
  have hpow := clip_bounds p2 0 6000 (by norm_num)
  have e10 : round_to 2 (10 : ℚ) = 10 := by
    unfold round_to
    norm_num
  have e55 : round_to 2 (55 : ℚ) = 55 := by
    unfold round_to
    norm_num
  have e0 : round_to 1 (0 : ℚ) = 0 := by
    unfold round_to
    norm_num
  have e6000 : round_to 1 (6000 : ℚ) = 6000 := by
    unfold round_to
    norm_num
  refine ⟨?_, ?_, ?_, ?_⟩
  · simpa [e10] using round_to_mono 2 ht.1
  · simpa [e55] using round_to_mono 2 ht.2
  · simp only []
    calc (0 : ℚ) = round_to 1 0 := e0.symm
      _ ≤ round_to 1 (clip p2 0 6000) := round_to_mono 1 hpow.1
  · simp only []
    calc round_to 1 (clip p2 0 6000) ≤ round_to 1 6000 := round_to_mono 1 hpow.2
      _ = 6000 := e6000

lemma compute_insights_long (df : List Reading) (now_utc : ℚ)
    (h : 3 ≤ df.length) :
    compute_insights df now_utc =
      insightRules (df.getD (df.length - 1) default)
        (df.getD (df.length - 2) default) now_utc := by
  unfold compute_insights
  rw [if_neg (by omega)]

lemma insightRules_structure (latest prev : Reading) (now_utc : ℚ) :
    ((insightRules latest prev now_utc).length = 3 ∨
      (insightRules latest prev now_utc).length = 4) ∧
    isTemperatureInsight ((insightRules latest prev now_utc).getD 0 default) ∧
    isPowerInsight ((insightRules latest prev now_utc).getD 1 default) ∧
    ((insightRules latest prev now_utc).length = 4 →
      isSpikeDropInsight ((insightRules latest prev now_utc).getD 2 default)) ∧
    isFreshnessInsight
      ((insightRules latest prev now_utc).getD
        ((insightRules latest prev now_utc).length - 1) default) := by
  simp only [insightRules]
  split_ifs <;>
    simp [isTemperatureInsight, isPowerInsight, isSpikeDropInsight, isFreshnessInsight]

/-- C1: with at least 3 readings, the output is one temperature insight at
position 0, one power insight at position 1, an optional spike/drop insight
at position 2, and one freshness insight last, so the length is 3 or 4. -/
theorem compute_insights_structure (df : List Reading) (now_utc : ℚ)
    (h : 3 ≤ df.length) :
    ((compute_insights df now_utc).length = 3 ∨
      (compute_insights df now_utc).length = 4) ∧
    isTemperatureInsight ((compute_insights df now_utc).getD 0 default) ∧
    isPowerInsight ((compute_insights df now_utc).getD 1 default) ∧
    ((compute_insights df now_utc).length = 4 →
      isSpikeDropInsight ((compute_insights df now_utc).getD 2 default)) ∧
    isFreshnessInsight
      ((compute_insights df now_utc).getD
        ((compute_insights df now_utc).length - 1) default) := by
  rw [compute_insights_long df now_utc h]
  exact insightRules_structure _ _ _

/-- Witness for C1: a concrete 3-reading window evaluated at a concrete
clock has the fixed category layout. -/
theorem compute_insights_structure_witness :
    ((compute_insights [⟨0, 20, 1000⟩, ⟨1, 21, 1100⟩, ⟨2, 22, 1200⟩] 2).length = 3 ∨
      (compute_insights [⟨0, 20, 1000⟩, ⟨1, 21, 1100⟩, ⟨2, 22, 1200⟩] 2).length = 4) ∧
    isTemperatureInsight
      ((compute_insights [⟨0, 20, 1000⟩, ⟨1, 21, 1100⟩, ⟨2, 22, 1200⟩] 2).getD 0 default) ∧
    isPowerInsight
      ((compute_insights [⟨0, 20, 1000⟩, ⟨1, 21, 1100⟩, ⟨2, 22, 1200⟩] 2).getD 1 default) ∧
    ((compute_insights [⟨0, 20, 1000⟩, ⟨1, 21, 1100⟩, ⟨2, 22, 1200⟩] 2).length = 4 →
      isSpikeDropInsight
        ((compute_insights [⟨0, 20, 1000⟩, ⟨1, 21, 1100⟩, ⟨2, 22, 1200⟩] 2).getD 2 default)) ∧
    isFreshnessInsight
      ((compute_insights [⟨0, 20, 1000⟩, ⟨1, 21, 1100⟩, ⟨2, 22, 1200⟩] 2).getD
        ((compute_insights [⟨0, 20, 1000⟩, ⟨1, 21, 1100⟩, ⟨2, 22, 1200⟩] 2).length - 1) default) :=
  compute_insights_structure [⟨0, 20, 1000⟩, ⟨1, 21, 1100⟩, ⟨2, 22, 1200⟩] 2 (by decide)

lemma insightRules_getD0 (latest prev : Reading) (now_utc : ℚ) :
    (insightRules latest prev now_utc).getD 0 default =
      (if latest.temperature_c ≥ TEMP_HIGH_C then
        ⟨.highTemperature latest.temperature_c, .warn, .thermo⟩
       else if latest.temperature_c ≤ TEMP_LOW_C then
        ⟨.lowTemperature latest.temperature_c, .warn, .cold⟩
       else ⟨.temperatureNormal latest.temperature_c, .ok, .checkmark⟩) := by
  simp only [insightRules]
  split_ifs <;> simp

/-- C3: the temperature insight classifies `latest.temperature_c` with
precedence high (`≥ 38`, inclusive), then low (`≤ 16`), else normal; any
value strictly between 16 and 38 is normal. -/
theorem temperature_classification (df : List Reading) (now_utc : ℚ)
    (h : 3 ≤ df.length) :
    (38 ≤ (df.getD (df.length - 1) default).temperature_c →
      (compute_insights df now_utc).getD 0 default =
        ⟨.highTemperature (df.getD (df.length - 1) default).temperature_c, .warn, .thermo⟩) ∧
    ((df.getD (df.length - 1) default).temperature_c < 38 →
      (df.getD (df.length - 1) default).temperature_c ≤ 16 →
      (compute_insights df now_utc).getD 0 default =
        ⟨.lowTemperature (df.getD (df.length - 1) default).temperature_c, .warn, .cold⟩) ∧
    (16 < (df.getD (df.length - 1) default).temperature_c →
      (df.getD (df.length - 1) default).temperature_c < 38 →
      (compute_insights df now_utc).getD 0 default =
        ⟨.temperatureNormal (df.getD (df.length - 1) default).temperature_c, .ok, .checkmark⟩) := by
  rw [compute_insights_long df now_utc h, insightRules_getD0]
  simp only [TEMP_HIGH_C, TEMP_LOW_C]
  refine ⟨fun h1 => ?_, fun h1 h2 => ?_, fun h1 h2 => ?_⟩ <;>
    split_ifs <;> first | rfl | linarith

/-- Witness for C3: a window whose latest temperature is exactly 38
classifies as high temperature. -/
theorem temperature_classification_witness :
    (compute_insights [⟨0, 20, 1000⟩, ⟨1, 21, 1000⟩, ⟨2, 38, 1000⟩] 2).getD 0 default =
      ⟨.highTemperature 38, .warn, .thermo⟩ :=
  (temperature_classification [⟨0, 20, 1000⟩, ⟨1, 21, 1000⟩, ⟨2, 38, 1000⟩] 2
    (by decide)).1 (by norm_num)

lemma insightRules_spike_filter (latest prev : Reading) (now_utc : ℚ) :
    (insightRules latest prev now_utc).filter isSpikeDropInsight =
      (if latest.power_w - prev.power_w > SPIKE_W then
        [⟨.loadSpike (latest.power_w - prev.power_w), .warn, .chartUp⟩]
       else if latest.power_w - prev.power_w < -SPIKE_W then
        [⟨.loadDrop (latest.power_w - prev.power_w), .info, .chartDown⟩]
       else []) := by
  simp only [insightRules]
  split_ifs <;> simp [isSpikeDropInsight]

lemma insightRules_power_filter (latest prev : Reading) (now_utc : ℚ) :
    ((insightRules latest prev now_utc).filter isPowerInsight).length = 1 := by
  simp only [insightRules]
  split_ifs <;> simp [isPowerInsight]

/-- C4: with `delta = latest.power_w - prev.power_w`, a delta above 400
emits exactly one warn spike insight, a delta below -400 exactly one info
drop insight, and otherwise none; the power classification insight is
present exactly once in every case. -/
theorem spike_drop_detection (df : List Reading) (now_utc : ℚ)
    (h : 3 ≤ df.length) :
    ((df.getD (df.length - 1) default).power_w -
        (df.getD (df.length - 2) default).power_w > 400 →
      (compute_insights df now_utc).filter isSpikeDropInsight =
        [⟨.loadSpike ((df.getD (df.length - 1) default).power_w -
            (df.getD (df.length - 2) default).power_w), .warn, .chartUp⟩]) ∧
    ((df.getD (df.length - 1) default).power_w -
        (df.getD (df.length - 2) default).power_w < -400 →
      (compute_insights df now_utc).filter isSpikeDropInsight =
        [⟨.loadDrop ((df.getD (df.length - 1) default).power_w -
            (df.getD (df.length - 2) default).power_w), .info, .chartDown⟩]) ∧
    (-400 ≤ (df.getD (df.length - 1) default).power_w -
        (df.getD (df.length - 2) default).power_w →
      (df.getD (df.length - 1) default).power_w -
        (df.getD (df.length - 2) default).power_w ≤ 400 →
      (compute_insights df now_utc).filter isSpikeDropInsight = []) ∧
    ((compute_insights df now_utc).filter isPowerInsight).length = 1 := by
  rw [compute_insights_long df now_utc h, insightRules_spike_filter]
  simp only [SPIKE_W]
  refine ⟨fun h1 => ?_, fun h1 => ?_, fun h1 h2 => ?_,
    insightRules_power_filter _ _ _⟩ <;>
    split_ifs <;> first | rfl | linarith

/-- Witness for C4: a +600 W delta produces exactly the spike insight, on
top of exactly one power classification insight. -/
theorem spike_drop_detection_witness :
    (compute_insights [⟨0, 20, 900⟩, ⟨1, 21, 1000⟩, ⟨2, 22, 1600⟩] 2).filter
        isSpikeDropInsight =
      [⟨.loadSpike 600, .warn, .chartUp⟩] ∧
    ((compute_insights [⟨0, 20, 900⟩, ⟨1, 21, 1000⟩, ⟨2, 22, 1600⟩] 2).filter
        isPowerInsight).length = 1 := by
  have hmain := spike_drop_detection [⟨0, 20, 900⟩, ⟨1, 21, 1000⟩, ⟨2, 22, 1600⟩] 2 (by decide)
  have h1 := hmain.1 (by norm_num)
  norm_num at h1
  exact ⟨h1, hmain.2.2.2⟩
